import Mathlib

/-!
Verification of the book-better-bot scheduler core.

Python strings are modelled as `List Char` (`Str`); Python `datetime.date`
values as civil day numbers (`Int`, days since 1970-01-01, via the standard
days-from-civil conversion); venue-local (Europe/London) instants as a day
number plus seconds-of-day.  Fallible Python operations (string parsing,
environment lookup, HTTP calls) are modelled with `Option`/`Except`; a
Python exception is an `Except.error`.  The classifier is modelled from the
point where `now` has already been converted to Europe/London local time
(the `now.astimezone(tz)` step): its argument is the venue-local instant,
as the spec itself states the algorithm in venue-local civil time.
Sub-second resolution is abstracted to whole seconds.
-/

namespace BookBot

/-- Python `str` modelled as a list of characters. -/
abbrev Str := List Char

/-- Shorthand turning a Lean string literal into the `Str` model. -/
abbrev str (s : String) : Str := s.data

/-- Python `str.strip()`: drop whitespace from both ends. -/
def pyStrip (s : Str) : Str :=
  ((s.dropWhile Char.isWhitespace).reverse.dropWhile Char.isWhitespace).reverse

/-- Numeric value of a decimal digit character. -/
def digitVal (c : Char) : Nat := c.toNat - '0'.toNat

/-- Value of a non-empty digit string. -/
def natOfDigits (s : Str) : Nat := s.foldl (fun acc c => 10 * acc + digitVal c) 0

/-- Python `s.split(c)` on a single separator character (always non-empty result). -/
def splitCh (c : Char) : Str → List Str
  | [] => [[]]
  | x :: rest =>
    match splitCh c rest with
    | [] => if x = c then [[], []] else [[x]]
    | h :: t => if x = c then [] :: h :: t else (x :: h) :: t

/-- Python `int(s)` for decimal literals: optional surrounding whitespace,
optional sign, then digits.  (Underscore digit separators are not modelled;
no claim depends on them.) -/
def pyInt (s : Str) : Option Int :=
  match pyStrip s with
  | '-' :: rest => if rest ≠ [] ∧ rest.all Char.isDigit then some (-(natOfDigits rest : Int)) else none
  | '+' :: rest => if rest ≠ [] ∧ rest.all Char.isDigit then some (natOfDigits rest : Int) else none
  | t => if t ≠ [] ∧ t.all Char.isDigit then some (natOfDigits t : Int) else none

/-- Gregorian leap year. -/
def isLeap (y : Int) : Bool := (y % 4 == 0 && y % 100 != 0) || y % 400 == 0

/-- Days in a month of the proleptic Gregorian calendar. -/
def daysInMonth (y m : Int) : Int :=
  if m = 2 then (if isLeap y then 29 else 28)
  else if m = 4 ∨ m = 6 ∨ m = 9 ∨ m = 11 then 30
  else 31

/-- Civil day number (days since 1970-01-01) of a Gregorian date
(standard days-from-civil conversion; all intermediate quantities are
non-negative for the four-digit years produced by the ISO parser). -/
def daysFromCivil (y m d : Int) : Int :=
  let y' := if m ≤ 2 then y - 1 else y
  let era := (if 0 ≤ y' then y' else y' - 399) / 400
  let yoe := y' - era * 400
  let mp := (m + 9) % 12
  let doy := (153 * mp + 2) / 5 + d - 1
  let doe := yoe * 365 + yoe / 4 - yoe / 100 + doy
  era * 146097 + doe - 719468

/-- Python `datetime.date.fromisoformat` restricted to the `YYYY-MM-DD`
form the Request Store delivers; returns the civil day number, or `none`
where Python raises `ValueError`. -/
def fromisoformat (s : Str) : Option Int :=
  match s with
  | [y1, y2, y3, y4, h1, m1, m2, h2, d1, d2] =>
    if [y1, y2, y3, y4, m1, m2, d1, d2].all Char.isDigit ∧ h1 = '-' ∧ h2 = '-' then
      let y : Int := (1000 * digitVal y1 + 100 * digitVal y2 + 10 * digitVal y3 + digitVal y4 : Nat)
      let m : Int := (10 * digitVal m1 + digitVal m2 : Nat)
      let d : Int := (10 * digitVal d1 + digitVal d2 : Nat)
      if 1 ≤ m ∧ m ≤ 12 ∧ 1 ≤ d ∧ d ≤ daysInMonth y m then some (daysFromCivil y m d) else none
    else none
  | _ => none

/-- One numeric `strptime` field of one or two digits within `[lo, hi]`. -/
def parseField2 (s : Str) (lo hi : Nat) : Option Nat :=
  match s with
  | [c] => if c.isDigit then (let n := digitVal c; if lo ≤ n ∧ n ≤ hi then some n else none) else none
  | [c1, c2] =>
    if c1.isDigit ∧ c2.isDigit then
      (let n := 10 * digitVal c1 + digitVal c2; if lo ≤ n ∧ n ≤ hi then some n else none)
    else none
  | _ => none

/-- `parse_time_str` (run_scheduler.py line 21): `strptime(t, "%H:%M:%S").time()`,
returned as seconds of day, `none` where Python raises `ValueError`. -/
def parse_time_str (s : Str) : Option Nat :=
  match splitCh ':' s with
  | [h, m, sec] => do
    let hh ← parseField2 h 0 23
    let mm ← parseField2 m 0 59
    let ss ← parseField2 sec 0 59
    some (3600 * hh + 60 * mm + ss)
  | _ => none

/-- Parse of the `RELEASE_TIME` value (run_scheduler.py lines 86-87):
`hh, mm, ss = map(int, value.split(":"))` followed by the `datetime`
constructor validation; `none` where Python raises. -/
def parseReleaseTime (s : Str) : Option Nat :=
  match splitCh ':' s with
  | [a, b, c] => do
    let hh ← pyInt a
    let mm ← pyInt b
    let ss ← pyInt c
    if 0 ≤ hh ∧ hh ≤ 23 ∧ 0 ≤ mm ∧ mm ≤ 59 ∧ 0 ≤ ss ∧ ss ≤ 59 then
      some ((hh * 3600 + mm * 60 + ss).toNat)
    else none
  | _ => none

/-- A venue-local (Europe/London) instant: civil day number plus seconds of day. -/
structure LDateTime where
  day : Int
  sec : Nat
deriving DecidableEq, Repr

/-- Python `datetime` comparison `a < b` for two aware datetimes of the same zone. -/
def ldtLt (a b : LDateTime) : Bool := a.day < b.day || (a.day == b.day && a.sec < b.sec)

/-- The scheduling action returned by the classifier. -/
inductive Action
  | SKIP
  | WAIT_RELEASE
  | PROCESS
  | EXPIRE
  | CLOSE
deriving DecidableEq, Repr

/-- The fields of a `court_booking_requests` row that the scheduler reads
(the `req` dict of run_scheduler.py).  Null-able preference columns are
`Option Str`; the date and time columns are the non-null strings the store
delivers. -/
structure Req where
  id : Str
  target_date : Str
  target_start_time : Str
  target_end_time : Str
  search_start_date : Str
  search_window_start_time : Str
  search_window_end_time : Str
  venue_slug : Str
  activity_slug : Str
  preferred_court_name_1 : Option Str
  preferred_court_name_2 : Option Str
  preferred_court_name_3 : Option Str
deriving DecidableEq, Repr

/-- The process environment (`os.environ`): a partial map from names to values. -/
abbrev Env := Str → Option Str

/-- Python `os.environ.get(k, d)`. -/
def getEnvD (env : Env) (k d : Str) : Str := (env k).getD d

/-- `should_process_request` (run_scheduler.py lines 65-123), from the point
where `now` has been converted to Europe/London local time.  `Except.error`
models an uncaught Python exception. -/
def should_process_request (req : Req) (nowLon : LDateTime) (env : Env) : Except Str Action :=
  let todayLon := nowLon.day
  match fromisoformat req.target_date with
  | none => .error (str "ValueError: Invalid isoformat string")
  | some target_date =>
  match fromisoformat req.search_start_date with
  | none => .error (str "ValueError: Invalid isoformat string")
  | some search_start_date =>
  let release_date := target_date - 7
  match parseReleaseTime (getEnvD env (str "RELEASE_TIME") (str "22:00:00")) with
  | none => .error (str "ValueError: invalid RELEASE_TIME")
  | some relSec =>
  let release_dt : LDateTime := ⟨release_date, relSec⟩
  if todayLon > target_date then .ok .EXPIRE
  else if todayLon = target_date - 1 then .ok .CLOSE
  else if todayLon < search_start_date then .ok .SKIP
  else if todayLon = release_date then
    (if ldtLt nowLon release_dt then .ok .WAIT_RELEASE else .ok .PROCESS)
  else if getEnvD env (str "RUN_MODE") (str "ANY") = str "ANY" then .ok .PROCESS
  else
    match parse_time_str req.search_window_start_time, parse_time_str req.search_window_end_time with
    | some ws, some we =>
      if ws ≤ nowLon.sec ∧ nowLon.sec ≤ we then .ok .PROCESS else .ok .SKIP
    | _, _ => .error (str "ValueError: time data does not match format")

/-- A Better slot (`book_better.models.ActivitySlot` as consumed by the
scheduler): only the fields the core reads are modelled.  `name` is the
location slug from which a court number is extracted; `location_id` is the
location identifier string used by the legacy court-priority chooser. -/
structure Slot where
  id : Int
  location_id : Str
  name : Str
deriving DecidableEq, Repr

/-- `extract_court_number_from_string` (run_scheduler.py lines 128-139). -/
def extract_court_number_from_string (t : Str) : Option Str :=
  if t = [] then none
  else
    let digits := t.filter Char.isDigit
    if digits = [] then none else some digits

/-- `get_slot_court_number` (run_scheduler.py lines 142-148); the `name`
attribute is always present on the modelled slot. -/
def get_slot_court_number (s : Slot) : Option Str :=
  extract_court_number_from_string s.name

/-- The list of preferred court numbers built in
`pick_best_slot_for_request` step 1 (lines 161-171): `extract(pref) if pref
else None`, keeping only truthy results. -/
def preferred_numbers (req : Req) : List Str :=
  [req.preferred_court_name_1, req.preferred_court_name_2, req.preferred_court_name_3].filterMap
    (fun p =>
      match p with
      | none => none
      | some s => if s = [] then none else extract_court_number_from_string s)

/-- One `slots_by_court.setdefault(num, []).append(s)` step: append `s` to
the entry for `k`, creating it at the end on first use (Python dicts keep
insertion order). -/
def addToGroups (g : List (Str × List Slot)) (k : Str) (s : Slot) : List (Str × List Slot) :=
  match g with
  | [] => [(k, [s])]
  | (k', l) :: rest => if k' = k then (k', l ++ [s]) :: rest else (k', l) :: addToGroups rest k s

/-- One iteration of the grouping loop (lines 177-181): slots without an
extractable court number are skipped. -/
def groupStep (g : List (Str × List Slot)) (s : Slot) : List (Str × List Slot) :=
  match get_slot_court_number s with
  | none => g
  | some k => addToGroups g k s

/-- The `slots_by_court` dict built from the slot list. -/
def buildGroups (slots : List Slot) : List (Str × List Slot) :=
  slots.foldl groupStep []

/-- Dict lookup returning `none` when the key is absent. -/
def lookupGroup (g : List (Str × List Slot)) (k : Str) : Option (List Slot) :=
  match g with
  | [] => none
  | (k', l) :: rest => if k' = k then some l else lookupGroup rest k

/-- The preference loop (lines 183-186): `if pref_num in slots_by_court and
slots_by_court[pref_num]: return slots_by_court[pref_num][0], f"Court {n}"`. -/
def findPrefLoop (g : List (Str × List Slot)) : List Str → Option (Slot × Str)
  | [] => none
  | p :: rest =>
    match lookupGroup g p with
    | some (s :: _) => some (s, str "Court " ++ p)
    | _ => findPrefLoop g rest

/-- `pick_best_slot_for_request` (run_scheduler.py lines 151-196).  The
`Except` layer models the indexing `slots[0]`, the only operation of the
function that Python could in principle fail on (`IndexError`); every other
operation used is total. -/
def pick_best_slot_for_request (req : Req) (slots : List Slot) :
    Except Str (Option Slot × Option Str) :=
  if slots = [] then .ok (none, none)
  else
    let prefs := preferred_numbers req
    match (if prefs ≠ [] then findPrefLoop (buildGroups slots) prefs else none) with
    | some (s, lab) => .ok (some s, some lab)
    | none =>
      match slots with
      | [] => .error (str "IndexError: list index out of range")
      | fb :: _ =>
        match get_slot_court_number fb with
        | some n => .ok (some fb, some (str "Court " ++ n))
        | none => .ok (some fb, some fb.name)

/-- A full `court_booking_requests` row as stored (request fields plus the
bookkeeping and booked-* columns). -/
structure Row where
  id : Str
  status : Str
  is_active : Bool
  attempt_count : Option Int
  last_run_at : Str
  last_error : Option Str
  target_date : Str
  target_start_time : Str
  target_end_time : Str
  search_start_date : Str
  venue_slug : Str
  activity_slug : Str
  booked_court_name : Option Str
  booked_slot_start : Option Str
  booked_slot_end : Option Str
deriving DecidableEq, Repr

/-- `update_request_seen` (supabase_client.py lines 84-158) as a state
transform of the addressed row: read the row, then PATCH `last_run_at`,
`attempt_count = (read attempt_count or 0) + 1`, plus `status` and
`last_error` only when the corresponding argument is not `None`. -/
def update_request_seen (row : Row) (now_iso : Str) (new_status : Option Str)
    (last_error : Option Str) : Row :=
  { row with
    last_run_at := now_iso
    attempt_count := some (row.attempt_count.getD 0 + 1)
    status := new_status.getD row.status
    last_error := match last_error with | some e => some e | none => row.last_error }

/-- The keyword parameters `update_request_seen` accepts (supabase_client.py
lines 84-88). -/
def update_request_seen_kwparams : List Str :=
  [str "request_id", str "new_status", str "last_error"]

/-- The keyword arguments passed at the CLOSE dispatch call site
(run_scheduler.py lines 635-640). -/
def close_call_kwargs : List Str :=
  [str "new_status", str "last_error", str "is_active"]

/-- The CLOSE branch of the run loop (run_scheduler.py lines 632-644): the
call supplies a keyword argument the callee does not accept, which in
Python raises `TypeError` before the function body runs; the row is only
updated if every supplied keyword is accepted. -/
def close_dispatch (row : Row) (now_iso : Str) : Except Str Row :=
  if close_call_kwargs.all (fun k => decide (k ∈ update_request_seen_kwparams)) then
    .ok (update_request_seen row now_iso (some (str "CLOSED"))
      (some (str "AUTO_CLOSED_T+1: no se encontraron canchas dentro del periodo de liberacion.")))
  else
    .error (str "TypeError: update_request_seen() got an unexpected keyword argument is_active")

/-- The status mapping of the run loop PROCESS branch with booking enabled
(run_scheduler.py lines 552-560). -/
def status_for_message (m : Str) : Str :=
  if (str "BOOKING_OK").isPrefixOf m then str "BOOKED"
  else if (str "BOOKING_NO_SLOTS").isPrefixOf m then str "SEARCHING"
  else if (str "ERROR_BOOKING_").isPrefixOf m then str "FAILED"
  else str "FAILED"

/-- The Request Store write of the PROCESS branch (run_scheduler.py lines
570-575): `update_request_seen(rid, new_status=..., last_error=message)`. -/
def process_update (row : Row) (now_iso : Str) (m : Str) : Row :=
  update_request_seen row now_iso (some (status_for_message m)) (some m)

/-- The cart summary read by the credit flow (live_client.py `CartSummary`,
fields the flow consumes). -/
structure CartSummary where
  total : Int
  item_hash : Str
  source : Str
  general_credit_available : Int
deriving Repr

/-- The JSON dict returned by `checkout_with_credit`, abstracted to the two
observations the wrapper makes of it: its `"status"` entry and its Python
truthiness. -/
structure CheckoutResult where
  status : Option Str
  truthy : Bool
deriving Repr

/-- A value returned by `book_with_credit_for_date`: a dict (observed
through its `"status"` entry and truthiness) or `None`. -/
inductive FlowResult
  | pyDict (status : Option Str) (truthy : Bool)
  | pyNone
deriving DecidableEq, Repr

/-- A Python exception: `KeyError` (carrying the missing key, caught
separately by the wrapper) or any other exception with its message. -/
inductive PyExn
  | keyError (name : Str)
  | exn (msg : Str)
deriving DecidableEq, Repr

/-- The externals one booking attempt interacts with: the credential
resolution outcome, the process environment before the call, today's local
date, and the outcome of each Provider operation in the order the flow
performs them. -/
structure CreditWorld where
  resolve : Except Str (Str × Str)
  env : Env
  today : Int
  listing : Except Str (List Slot)
  addToCart : Except Str Unit
  cartSummary : Except Str CartSummary
  applyCredit : Except Str Unit
  checkout : Except Str CheckoutResult

/-- The valid `BetterVenue` enum values (book_better/enums.py). -/
def venueValues : List Str :=
  [str "leytonstone-leisure-centre", str "newham-leisure-centre",
   str "walthamstow-leisure-centre", str "copper-box-arena",
   str "islington-tennis-centre"]

/-- The valid `BetterActivity` enum values (book_better/enums.py). -/
def activityValues : List Str :=
  [str "badminton-40min", str "highbury-tennis"]

/-- `COURT_PRIORITY` (book_better/main.py lines 24-36). -/
def COURT_PRIORITY : List Str :=
  [str "5157", str "5156", str "5155", str "5147", str "5148", str "5149",
   str "5150", str "5151", str "5152", str "5153", str "5154"]

/-- `court_rank` (book_better/main.py lines 47-52): position in
`COURT_PRIORITY`, or its length when absent (the caught `ValueError`). -/
def court_rank (s : Slot) : Nat := COURT_PRIORITY.indexOf s.location_id

/-- First element of minimal rank, earliest on ties. -/
def minRankFirst (s : Slot) : List Slot → Slot
  | [] => s
  | t :: rest => if court_rank t < court_rank s then minRankFirst t rest else minRankFirst s rest

/-- `choose_slot_with_court_priority` (book_better/main.py lines 39-61):
`sorted(slots, key=court_rank)[0]` for a non-empty list; by stability of
Python `sorted` this is the first slot attaining the minimal rank. -/
def choose_slot_with_court_priority (slots : List Slot) : Option Slot :=
  match slots with
  | [] => none
  | s :: rest => some (minRankFirst s rest)

/-- The credential lookups at the top of `book_with_credit_for_date`
(book_better/main.py lines 120-126): `os.environ[...]` raises `KeyError`
when the key is absent. -/
def credsFor (account : Str) (env : Env) : Except PyExn Unit :=
  if account = str "javier" then
    match env (str "BETTER_USERNAME_JAVIER") with
    | none => .error (.keyError (str "BETTER_USERNAME_JAVIER"))
    | some _ =>
      match env (str "BETTER_PASSWORD_JAVIER") with
      | none => .error (.keyError (str "BETTER_PASSWORD_JAVIER"))
      | some _ => .ok ()
  else
    match env (str "BETTER_USERNAME") with
    | none => .error (.keyError (str "BETTER_USERNAME"))
    | some _ =>
      match env (str "BETTER_PASSWORD") with
      | none => .error (.keyError (str "BETTER_PASSWORD"))
      | some _ => .ok ()

/-- `book_with_credit_for_date` (book_better/main.py lines 107-199) against
a `CreditWorld`, paired with the number of calls the attempt makes to the
Provider checkout-completion operation (`checkout_with_credit`).  The env
keys `BETTER_VENUE_SLUG`/`BETTER_ACTIVITY_SLUG` feed the enum constructors,
which raise `ValueError` on a value outside the enum. -/
def book_with_credit_for_date (account : Str) (env : Env) (w : CreditWorld) :
    Except PyExn FlowResult × Nat :=
  match credsFor account env with
  | .error e => (.error e, 0)
  | .ok _ =>
  match env (str "BETTER_VENUE_SLUG") with
  | none => (.error (.keyError (str "BETTER_VENUE_SLUG")), 0)
  | some v =>
  if v ∉ venueValues then (.error (.exn (str "ValueError: not a valid BetterVenue")), 0)
  else
  match env (str "BETTER_ACTIVITY_SLUG") with
  | none => (.error (.keyError (str "BETTER_ACTIVITY_SLUG")), 0)
  | some a =>
  if a ∉ activityValues then (.error (.exn (str "ValueError: not a valid BetterActivity")), 0)
  else
  match w.listing with
  | .error e => (.error (.exn e), 0)
  | .ok slots =>
  if slots = [] then (.ok (.pyDict (some (str "not_open_yet")) true), 0)
  else
  match choose_slot_with_court_priority slots with
  | none => (.ok (.pyDict (some (str "no_slot")) true), 0)
  | some _ =>
  match w.addToCart with
  | .error e => (.error (.exn e), 0)
  | .ok _ =>
  match w.cartSummary with
  | .error e => (.error (.exn e), 0)
  | .ok cart =>
  if cart.general_credit_available < cart.total then (.ok .pyNone, 0)
  else
  match w.applyCredit with
  | .error e => (.error (.exn e), 0)
  | .ok _ =>
  match w.checkout with
  | .error e => (.error (.exn e), 1)
  | .ok r => (.ok (.pyDict r.status r.truthy), 1)

/-- Functional update of the environment, modelling `os.environ[k] = v`. -/
def setEnv (env : Env) (k v : Str) : Env :=
  fun x => if x = k then some v else env x

/-- Python `a or b` on optional strings (`None` and `""` are falsy). -/
def pyOrStr : Option Str → Option Str → Option Str
  | some s, b => if s = [] then b else some s
  | none, b => b

/-- Python truthiness of an optional string. -/
def truthyOpt : Option Str → Bool
  | some s => s ≠ []
  | none => false

/-- The part after the first occurrence of `sep`, i.e. Python
`s.split(sep, 1)[1]`, `none` when `sep` does not occur (where the indexing
raises `IndexError`). -/
def splitAfterFirst (sep : Str) : Str → Option Str
  | [] => none
  | c :: rest =>
    if sep.isPrefixOf (c :: rest) then some ((c :: rest).drop sep.length)
    else splitAfterFirst sep rest

/-- Modelled from the spec: `book_better.utils.parse_time` is not in the
repository snapshot; per its call sites it parses an `"HHMM"` digit string
into a time of day, raising on malformed input. -/
def parse_time_hhmm (s : Str) : Option (Nat × Nat) :=
  match s with
  | [h1, h2, m1, m2] =>
    if [h1, h2, m1, m2].all Char.isDigit then
      let hh := 10 * digitVal h1 + digitVal h2
      let mm := 10 * digitVal m1 + digitVal m2
      if hh ≤ 23 ∧ mm ≤ 59 then some (hh, mm) else none
    else none
  | _ => none

/-- `"HH:MM:SS".replace(":", "")[:4]` (run_scheduler.py lines 392-393). -/
def hhmmOf (s : Str) : Str := (s.filter (fun c => c ≠ ':')).take 4

/-- `f"BOOKING_NO_SLOTS: 0 slots for {target_date} {start[:5]}-{end[:5]}"`. -/
def msg_no_slots_0 (req : Req) : Str :=
  str "BOOKING_NO_SLOTS: 0 slots for " ++ (req.target_date ++ (str " " ++
    (req.target_start_time.take 5 ++ (str "-" ++ req.target_end_time.take 5))))

/-- `f"BOOKING_NO_SLOTS: not_open_yet for {target_date} {start[:5]}-{end[:5]}"`. -/
def msg_no_slots_not_open (req : Req) : Str :=
  str "BOOKING_NO_SLOTS: not_open_yet for " ++ (req.target_date ++ (str " " ++
    (req.target_start_time.take 5 ++ (str "-" ++ req.target_end_time.take 5))))

/-- The success message of the credit flow. -/
def msg_booking_ok : Str := str "BOOKING_OK: credit checkout completed"

/-- The message for a falsy flow result. -/
def msg_empty_flow : Str := str "ERROR_BOOKING_CHECKOUT: credit flow returned empty/None"

/-- `book_with_credit_for_request` (run_scheduler.py lines 385-469) against
a `CreditWorld`: returns the result message together with the number of
Provider checkout calls, or the uncaught Python exception.  The env keys
`BETTER_TARGET_DATE`, `BETTER_START_HHMM`, `BETTER_END_HHMM` and
`BETTER_PREF_COURT_*` are set by the source but never read by the modelled
flow, so those assignments are omitted. -/
def book_with_credit_for_request (req : Req) (w : CreditWorld) : Except PyExn (Str × Nat) :=
  match fromisoformat req.target_date with
  | none => .error (.exn (str "ValueError: Invalid isoformat string"))
  | some tgt =>
  match parse_time_hhmm (hhmmOf req.target_start_time) with
  | none => .error (.exn (str "ValueError: invalid time"))
  | some _ =>
  match parse_time_hhmm (hhmmOf req.target_end_time) with
  | none => .error (.exn (str "ValueError: invalid time"))
  | some _ =>
  match w.resolve with
  | .error e => .error (.exn e)
  | .ok (u_key, p_key) =>
  let u_val := pyOrStr (w.env u_key) (w.env (str "BETTER_USERNAME"))
  let p_val := pyOrStr (w.env p_key) (w.env (str "BETTER_PASSWORD"))
  if ¬ truthyOpt u_val ∨ ¬ truthyOpt p_val then
    .ok (str "ERROR_BOOKING_CHECKOUT_MISSING_ENV: " ++ u_key ++ str "/" ++ p_key ++
      str " + BETTER_USERNAME/BETTER_PASSWORD no estan presentes en env.", 0)
  else
  match u_val, p_val with
  | some u, some p =>
    let env1 := setEnv (setEnv w.env (str "BETTER_USERNAME") u) (str "BETTER_PASSWORD") p
    let labelRes : Except PyExn Str :=
      if (str "BETTER_USERNAME_").isPrefixOf (u_key.map Char.toUpper) then
        match splitAfterFirst (str "BETTER_USERNAME_") u_key with
        | some suffix => .ok (suffix.map Char.toLower)
        | none => .error (.exn (str "IndexError: list index out of range"))
      else .ok (str "javier")
    match labelRes with
    | .error e => .error e
    | .ok label =>
    let venue_slug := pyStrip req.venue_slug
    let activity_slug := pyStrip req.activity_slug
    if venue_slug = [] ∨ activity_slug = [] then
      .ok (str "ERROR_BOOKING_CHECKOUT_MISSING_SLUGS: venue_slug/activity_slug vacios en la request", 0)
    else
    let env2 := setEnv (setEnv env1 (str "BETTER_VENUE_SLUG") venue_slug)
      (str "BETTER_ACTIVITY_SLUG") activity_slug
    match book_with_credit_for_date label env2 w with
    | (.error (.keyError k), c) =>
      .ok (str "ERROR_BOOKING_CHECKOUT_MISSING_ENVVAR: " ++ k ++ str " required by main.py", c)
    | (.error (.exn e), c) => .ok (str "ERROR_BOOKING_CHECKOUT: " ++ e, c)
    | (.ok res, c) =>
      let release := tgt - 7
      match res with
      | .pyDict st truthy =>
        if st = some (str "not_open_yet") ∧ w.today > release then .ok (msg_no_slots_0 req, c)
        else if st = some (str "not_open_yet") then .ok (msg_no_slots_not_open req, c)
        else if st = some (str "no_slot") then .ok (msg_no_slots_0 req, c)
        else if st = some (str "ok") then .ok (msg_booking_ok, c)
        else if truthy then .ok (msg_booking_ok, c)
        else .ok (msg_empty_flow, c)
      | .pyNone => .ok (msg_empty_flow, c)
  | _, _ => .error (.exn (str "unreachable"))

/-- The PROCESS dispatch of the run loop with booking enabled
(run_scheduler.py lines 541-550): one call of the credit flow, retried
exactly once when the message starts with `ERROR_BOOKING_CHECKOUT`.
Returns the final message, the total number of Provider checkout calls, and
the number of full booking attempts made. -/
def dispatch_booking (req : Req) (w1 w2 : CreditWorld) : Except PyExn (Str × Nat × Nat) :=
  match book_with_credit_for_request req w1 with
  | .error e => .error e
  | .ok (m1, c1) =>
    if (str "ERROR_BOOKING_CHECKOUT").isPrefixOf m1 then
      match book_with_credit_for_request req w2 with
      | .error e => .error e
      | .ok (m2, c2) => .ok (m2, c1 + c2, 2)
    else .ok (m1, c1, 1)

/-- A representative pending request: play 2026-01-16 19:00-20:00, release
day 2026-01-09, preferences Court 5 then Court 3. -/
def reqA : Req :=
  { id := str "r1", target_date := str "2026-01-16", target_start_time := str "19:00:00",
    target_end_time := str "20:00:00", search_start_date := str "2026-01-01",
    search_window_start_time := str "18:00:00", search_window_end_time := str "22:00:00",
    venue_slug := str "islington-tennis-centre", activity_slug := str "highbury-tennis",
    preferred_court_name_1 := some (str "Court 5"), preferred_court_name_2 := some (str "Court 3"),
    preferred_court_name_3 := none }

/-- `reqA` with a malformed target date. -/
def reqBadDate : Req := { reqA with target_date := str "garbage" }

/-- The stored row behind `reqA`, still active and unbooked. -/
def rowA : Row :=
  { id := str "r1", status := str "SEARCHING", is_active := true, attempt_count := some 3,
    last_run_at := str "t0", last_error := none, target_date := str "2026-01-16",
    target_start_time := str "19:00:00", target_end_time := str "20:00:00",
    search_start_date := str "2026-01-01", venue_slug := str "islington-tennis-centre",
    activity_slug := str "highbury-tennis", booked_court_name := none,
    booked_slot_start := none, booked_slot_end := none }

/-- An empty environment (every configurable falls back to its default). -/
def envANY : Env := fun _ => none

/-- An environment selecting the windowed (`RELEASE_ONLY`) run mode. -/
def envRO : Env := fun k => if k = str "RUN_MODE" then some (str "RELEASE_ONLY") else none

/-- An environment differing from `envANY` only on a key the classifier
never reads. -/
def envOther : Env := fun k => if k = str "UNRELATED" then some (str "x") else none

/-- A slot on court 3 of the Islington venue. -/
def slotC3 : Slot := { id := 1, location_id := str "5149", name := str "islington-tennis-court-3" }

/-- A slot on court 5 of the Islington venue. -/
def slotC5 : Slot := { id := 2, location_id := str "5151", name := str "islington-tennis-court-5" }

/-- The environment of a configured `javier` account. -/
def jenv : Env := fun k =>
  if k = str "BETTER_USERNAME_JAVIER" then some (str "user")
  else if k = str "BETTER_PASSWORD_JAVIER" then some (str "pass")
  else none

/-- A world in which every external step succeeds and the checkout returns
a truthy confirmation dict: the booking attempt succeeds. -/
def wSuccess : CreditWorld :=
  { resolve := .ok (str "BETTER_USERNAME_JAVIER", str "BETTER_PASSWORD_JAVIER"),
    env := jenv, today := 20460,
    listing := .ok [slotC5], addToCart := .ok (),
    cartSummary := .ok { total := 100, item_hash := str "h", source := str "activity-booking",
                         general_credit_available := 1000 },
    applyCredit := .ok (), checkout := .ok { status := none, truthy := true } }

/-- `wSuccess` except that the Provider slot-listing call raises. -/
def wListErr : CreditWorld := { wSuccess with listing := .error (str "HTTPError 500") }

/-- `wSuccess` except that the Provider returns an empty slot list. -/
def wEmpty : CreditWorld := { wSuccess with listing := .ok [] }

theorem isPrefixOf_append_of_length_le (p : Str) : ∀ (q t : Str), p.length ≤ q.length →
    p.isPrefixOf (q ++ t) = p.isPrefixOf q := by
  induction p with
  | nil => intro q t _; simp [List.isPrefixOf]
  | cons a as ih =>
    intro q t hq
    cases q with
    | nil => simp at hq
    | cons b bs =>
      simp only [List.cons_append, List.isPrefixOf, List.append_eq]
      rw [ih bs t (by simpa using hq)]

theorem isPrefixOf_of_ne_head (a b : Char) (p q l : Str) (hab : a ≠ b)
    (h : (a :: p).isPrefixOf l = true) : (b :: q).isPrefixOf l = false := by
  cases l with
  | nil => simp [List.isPrefixOf] at h
  | cons c cs =>
    simp only [List.isPrefixOf, Bool.and_eq_true, beq_iff_eq] at h ⊢
    simp only [Bool.and_eq_false_iff]
    left
    have : a = c := h.1
    subst this
    exact beq_eq_false_iff_ne.mpr (fun hbc => hab hbc.symm)

theorem pick_best_total (q : Req) (slots : List Slot) :
    ∃ r, pick_best_slot_for_request q slots = .ok r := by
  by_cases h : slots = []
  · subst h; exact ⟨(none, none), rfl⟩
  · obtain ⟨a, as, rfl⟩ := List.exists_cons_of_ne_nil h
    unfold pick_best_slot_for_request
    simp only [if_neg h]
    rcases hfp : (if preferred_numbers q ≠ [] then findPrefLoop (buildGroups (a :: as)) (preferred_numbers q) else none) with _ | ⟨s, lab⟩
    · rcases hn : get_slot_court_number a with _ | n
      · exact ⟨(some a, some a.name), by simp [hfp, hn]⟩
      · exact ⟨(some a, some (str "Court " ++ n)), by simp [hfp, hn]⟩
    · exact ⟨(some s, some lab), by simp [hfp]⟩

/-- C10: `update_request_seen` changes only `last_run_at`, `attempt_count`
(incremented by one from the value read, a missing counter counting as 0),
and — only when the corresponding argument is given — `status` and
`last_error`; every other stored field, in particular `is_active` and the
booked-* fields, is unchanged. -/
theorem C10_update_request_seen_frame (row : Row) (now_iso : Str) (ns le : Option Str) :
    (update_request_seen row now_iso ns le).last_run_at = now_iso ∧
    (update_request_seen row now_iso ns le).attempt_count = some (row.attempt_count.getD 0 + 1) ∧
    (update_request_seen row now_iso ns le).status = ns.getD row.status ∧
    (update_request_seen row now_iso ns le).last_error =
      (match le with | some e => some e | none => row.last_error) ∧
    (update_request_seen row now_iso ns le).is_active = row.is_active ∧
    (update_request_seen row now_iso ns le).booked_court_name = row.booked_court_name ∧
    (update_request_seen row now_iso ns le).booked_slot_start = row.booked_slot_start ∧
    (update_request_seen row now_iso ns le).booked_slot_end = row.booked_slot_end ∧
    (update_request_seen row now_iso ns le).id = row.id ∧
    (update_request_seen row now_iso ns le).target_date = row.target_date ∧
    (update_request_seen row now_iso ns le).target_start_time = row.target_start_time ∧
    (update_request_seen row now_iso ns le).target_end_time = row.target_end_time ∧
    (update_request_seen row now_iso ns le).search_start_date = row.search_start_date ∧
    (update_request_seen row now_iso ns le).venue_slug = row.venue_slug ∧
    (update_request_seen row now_iso ns le).activity_slug = row.activity_slug := by
  refine ⟨rfl, rfl, rfl, rfl, rfl, rfl, rfl, rfl, rfl, rfl, rfl, rfl, rfl, rfl, rfl⟩

/-- C3: a request one day before its target date classifies as CLOSE, but
the CLOSE dispatch passes the keyword argument `is_active` to
`update_request_seen`, which does not accept it, so the call raises
`TypeError` for every row and the store is never updated to CLOSED. -/
theorem C3_close_dispatch_raises :
    (∀ (row : Row) (now_iso : Str), close_dispatch row now_iso =
      .error (str "TypeError: update_request_seen() got an unexpected keyword argument is_active")) ∧
    should_process_request reqA ⟨daysFromCivil 2026 1 15, 36000⟩ envANY = .ok Action.CLOSE := by
  exact ⟨fun row now_iso => rfl, rfl⟩

/-- C9 counterexample: the same request at the same instant classifies as
PROCESS under `RUN_MODE=ANY` (the default) and as SKIP under
`RUN_MODE=RELEASE_ONLY`: the result is not independent of the ambient
environment configuration. -/
theorem C9_counterexample :
    should_process_request reqA ⟨daysFromCivil 2026 1 12, 36000⟩ envANY = .ok Action.PROCESS ∧
    should_process_request reqA ⟨daysFromCivil 2026 1 12, 36000⟩ envRO = .ok Action.SKIP := by
  exact ⟨rfl, rfl⟩

/-- C9 (amended): `should_process_request` is a pure deterministic function
of the request, the instant, and the two ambient configuration values it
reads from the environment (`RELEASE_TIME`, `RUN_MODE`): any two
environments agreeing on those two keys yield the same action. -/
theorem C9_classify_env_determinism (req : Req) (now : LDateTime) (e1 e2 : Env)
    (h1 : e1 (str "RELEASE_TIME") = e2 (str "RELEASE_TIME"))
    (h2 : e1 (str "RUN_MODE") = e2 (str "RUN_MODE")) :
    should_process_request req now e1 = should_process_request req now e2 := by
  simp only [should_process_request, getEnvD, h1, h2]

/-- C9 witness: two concrete environments agreeing on the two read keys. -/
theorem C9_witness :
    should_process_request reqA ⟨daysFromCivil 2026 1 12, 36000⟩ envANY =
      should_process_request reqA ⟨daysFromCivil 2026 1 12, 36000⟩ envOther := by
  exact C9_classify_env_determinism reqA ⟨daysFromCivil 2026 1 12, 36000⟩ envANY envOther rfl rfl

/-- C6: on the release day (venue-local today = target − 7) of a request
not stopped by the EXPIRE, CLOSE, or SKIP rules, the classifier returns
WAIT_RELEASE strictly before the configured release instant and PROCESS at
or after it. -/
theorem C6_release_day (req : Req) (now : LDateTime) (env : Env)
    (target search relSec : Int)
    (ht : fromisoformat req.target_date = some target)
    (hs : fromisoformat req.search_start_date = some search)
    (hr : parseReleaseTime (getEnvD env (str "RELEASE_TIME") (str "22:00:00")) = some (relSec.toNat))
    (hd : now.day = target - 7)
    (hss : search ≤ now.day) :
    should_process_request req now env =
      .ok (if ldtLt now ⟨target - 7, relSec.toNat⟩ then Action.WAIT_RELEASE else Action.PROCESS) := by
  simp only [should_process_request, ht, hs, hr]
  rw [if_neg (by omega : ¬ now.day > target),
      if_neg (by omega : ¬ now.day = target - 1),
      if_neg (by omega : ¬ now.day < search),
      if_pos hd]
  split <;> rfl

/-- C6 witness: release time 22:00:00; one second before it the classifier
waits, one second after it processes. -/
theorem C6_witness :
    should_process_request reqA ⟨daysFromCivil 2026 1 9, 79199⟩ envANY = .ok Action.WAIT_RELEASE ∧
    should_process_request reqA ⟨daysFromCivil 2026 1 9, 79201⟩ envANY = .ok Action.PROCESS := by
  constructor
  · exact C6_release_day reqA ⟨daysFromCivil 2026 1 9, 79199⟩ envANY 20469 20454 79200
      rfl rfl rfl (by decide) (by decide)
  · exact C6_release_day reqA ⟨daysFromCivil 2026 1 9, 79201⟩ envANY 20469 20454 79200
      rfl rfl rfl (by decide) (by decide)

/-- C5 counterexample: a request record with a malformed `target_date`
makes the classifier raise `ValueError` instead of returning an action. -/
theorem C5_counterexample :
    should_process_request reqBadDate ⟨20469, 0⟩ envANY =
      .error (str "ValueError: Invalid isoformat string") := by
  exact rfl

/-- C5 (amended): the classifier is total — it returns one of the five
actions without raising — whenever its date fields parse as ISO dates, the
configured `RELEASE_TIME` parses, and the search-window times parse (the
last two are consulted only on some paths); the slot selector is total for
every request record and every slot list. -/
theorem C5_totality (req : Req) (now : LDateTime) (env : Env)
    (target search : Int) (relSec ws we : Nat)
    (ht : fromisoformat req.target_date = some target)
    (hs : fromisoformat req.search_start_date = some search)
    (hr : parseReleaseTime (getEnvD env (str "RELEASE_TIME") (str "22:00:00")) = some relSec)
    (hws : parse_time_str req.search_window_start_time = some ws)
    (hwe : parse_time_str req.search_window_end_time = some we) :
    (∃ a, should_process_request req now env = .ok a) ∧
    (∀ (q : Req) (slots : List Slot), ∃ r, pick_best_slot_for_request q slots = .ok r) := by
  refine ⟨?_, fun q slots => pick_best_total q slots⟩
  simp only [should_process_request, ht, hs, hr, hws, hwe]
  repeat' split
  all_goals exact ⟨_, rfl⟩

/-- C5 witness: the classifier returns an action on a well-formed request. -/
theorem C5_witness :
    ∃ a, should_process_request reqA ⟨daysFromCivil 2026 1 12, 36000⟩ envANY = .ok a := by
  exact (C5_totality reqA ⟨daysFromCivil 2026 1 12, 36000⟩ envANY 20469 20454 79200 64800 79200
    rfl rfl rfl rfl rfl).1

/-- C1 counterexample: a booking attempt that returns the BOOKED outcome,
after which the success-path store update sets status BOOKED but leaves the
row active and its booked court/time fields unset — the claim's cleared
active flag and persisted booked fields fail on the code's success path. -/
theorem C1_counterexample :
    dispatch_booking reqA wSuccess wSuccess = .ok (msg_booking_ok, 1, 1) ∧
    (process_update rowA (str "T1") msg_booking_ok).status = str "BOOKED" ∧
    (process_update rowA (str "T1") msg_booking_ok).is_active = true ∧
    (process_update rowA (str "T1") msg_booking_ok).booked_court_name = none ∧
    (process_update rowA (str "T1") msg_booking_ok).booked_slot_start = none ∧
    (process_update rowA (str "T1") msg_booking_ok).booked_slot_end = none := by
  exact ⟨rfl, rfl, rfl, rfl, rfl, rfl⟩

/-- C1 (amended): for every booking attempt whose final message reports the
BOOKED outcome, the success-path store update sets status to BOOKED and
records the message, timestamp and incremented attempt counter, and leaves
the active flag and the booked court/time fields exactly as they were. -/
theorem C1_success_path_update (row : Row) (now_iso : Str) (req : Req)
    (w1 w2 : CreditWorld) (m : Str) (c a : Nat)
    (_hd : dispatch_booking req w1 w2 = .ok (m, c, a))
    (hp : (str "BOOKING_OK").isPrefixOf m = true) :
    (process_update row now_iso m).status = str "BOOKED" ∧
    (process_update row now_iso m).last_error = some m ∧
    (process_update row now_iso m).last_run_at = now_iso ∧
    (process_update row now_iso m).attempt_count = some (row.attempt_count.getD 0 + 1) ∧
    (process_update row now_iso m).is_active = row.is_active ∧
    (process_update row now_iso m).booked_court_name = row.booked_court_name ∧
    (process_update row now_iso m).booked_slot_start = row.booked_slot_start ∧
    (process_update row now_iso m).booked_slot_end = row.booked_slot_end := by
  refine ⟨?_, rfl, rfl, rfl, rfl, rfl, rfl, rfl⟩
  simp [process_update, update_request_seen, status_for_message, hp]

/-- C1 witness: the amended success-path property at a concrete successful
booking. -/
theorem C1_witness :
    (process_update rowA (str "T1") msg_booking_ok).status = str "BOOKED" ∧
    (process_update rowA (str "T1") msg_booking_ok).last_error = some msg_booking_ok ∧
    (process_update rowA (str "T1") msg_booking_ok).last_run_at = str "T1" ∧
    (process_update rowA (str "T1") msg_booking_ok).attempt_count =
      some (rowA.attempt_count.getD 0 + 1) ∧
    (process_update rowA (str "T1") msg_booking_ok).is_active = rowA.is_active ∧
    (process_update rowA (str "T1") msg_booking_ok).booked_court_name = rowA.booked_court_name ∧
    (process_update rowA (str "T1") msg_booking_ok).booked_slot_start = rowA.booked_slot_start ∧
    (process_update rowA (str "T1") msg_booking_ok).booked_slot_end = rowA.booked_slot_end := by
  exact C1_success_path_update rowA (str "T1") reqA wSuccess wSuccess msg_booking_ok 1 1 rfl rfl

theorem pick_best_some (q : Req) (a : Slot) (as : List Slot) :
    ∃ s l, pick_best_slot_for_request q (a :: as) = .ok (some s, some l) := by
  unfold pick_best_slot_for_request
  simp only [if_neg (List.cons_ne_nil a as)]
  rcases hfp : (if preferred_numbers q ≠ [] then
      findPrefLoop (buildGroups (a :: as)) (preferred_numbers q) else none) with _ | ⟨s, lab⟩
  · rcases hn : get_slot_court_number a with _ | n
    · exact ⟨a, a.name, by simp [hfp, hn]⟩
    · exact ⟨a, str "Court " ++ n, by simp [hfp, hn]⟩
  · exact ⟨s, lab, by simp [hfp]⟩

/-- C8: the slot selector returns `(none, none)` exactly when the slot list
is empty, and on a non-empty list it returns some slot with a non-none
label. -/
theorem C8_selector_none_iff_empty (req : Req) (slots : List Slot) :
    (pick_best_slot_for_request req slots = .ok (none, none) ↔ slots = []) ∧
    (slots ≠ [] → ∃ s l, pick_best_slot_for_request req slots = .ok (some s, some l)) := by
  cases slots with
  | nil => exact ⟨by simp [pick_best_slot_for_request], by simp⟩
  | cons a as =>
    obtain ⟨s, l, h⟩ := pick_best_some req a as
    refine ⟨⟨fun hc => ?_, fun hc => by simp at hc⟩, fun _ => ⟨s, l, h⟩⟩
    rw [h] at hc
    simp at hc

/-- C8 witness: a non-empty concrete slot list yields some slot and label. -/
theorem C8_witness :
    ∃ s l, pick_best_slot_for_request reqA [slotC3, slotC5] = .ok (some s, some l) := by
  exact (C8_selector_none_iff_empty reqA [slotC3, slotC5]).2 (by simp)

theorem lookup_addToGroups (g : List (Str × List Slot)) (k' k : Str) (s : Slot) :
    lookupGroup (addToGroups g k' s) k =
      if k' = k then some ((lookupGroup g k).getD [] ++ [s]) else lookupGroup g k := by
  induction g with
  | nil =>
    simp only [addToGroups, lookupGroup]
    split <;> simp
  | cons hd tl ih =>
    obtain ⟨k0, l0⟩ := hd
    by_cases h1 : k0 = k' <;> by_cases h2 : k' = k <;>
      simp_all [addToGroups, lookupGroup]

theorem lookup_foldl_groupStep (slots : List Slot) : ∀ (g : List (Str × List Slot)) (k : Str),
    lookupGroup (slots.foldl groupStep g) k =
      (match lookupGroup g k with
       | some l => some (l ++ slots.filter (fun s => get_slot_court_number s == some k))
       | none =>
         if slots.filter (fun s => get_slot_court_number s == some k) = [] then none
         else some (slots.filter (fun s => get_slot_court_number s == some k))) := by
  induction slots with
  | nil =>
    intro g k
    cases h : lookupGroup g k <;> simp [h]
  | cons s ss ih =>
    intro g k
    simp only [List.foldl_cons]
    rcases hn : get_slot_court_number s with _ | k2
    · have hpred : (get_slot_court_number s == some k) = false := by simp [hn]
      rw [show groupStep g s = g from by simp [groupStep, hn], ih g k,
          List.filter_cons, hpred]
      simp
    · rw [show groupStep g s = addToGroups g k2 s from by simp [groupStep, hn],
          ih (addToGroups g k2 s) k, lookup_addToGroups g k2 k s, List.filter_cons]
      by_cases hk : k2 = k
      · subst hk
        have hpred : (get_slot_court_number s == some k2) = true := by simp [hn]
        rw [hpred, if_pos rfl]
        simp only [if_true]
        cases h : lookupGroup g k2 <;> simp [h]
      · have hpred : (get_slot_court_number s == some k) = false := by simp [hn, hk]
        rw [hpred, if_neg hk]
        simp only [Bool.false_eq_true, if_false]

theorem lookup_buildGroups (slots : List Slot) (k : Str) :
    lookupGroup (buildGroups slots) k =
      (if slots.filter (fun s => get_slot_court_number s == some k) = [] then none
       else some (slots.filter (fun s => get_slot_court_number s == some k))) := by
  have h := lookup_foldl_groupStep slots [] k
  simpa [buildGroups, lookupGroup] using h

theorem find?_eq_head?_filter {α : Type} (f : α → Bool) (l : List α) :
    l.find? f = (l.filter f).head? := by
  induction l with
  | nil => rfl
  | cons a as ih =>
    cases hfa : f a
    · rw [List.find?_cons_of_neg as (by simp [hfa]), List.filter_cons, hfa]
      simp only [Bool.false_eq_true, if_false]
      exact ih
    · rw [List.find?_cons_of_pos as hfa, List.filter_cons, hfa]
      simp

theorem findPrefLoop_spec (slots : List Slot) : ∀ (prefs : List Str) (p : Str) (s : Slot),
    prefs.find? (fun q => slots.any (fun t => get_slot_court_number t == some q)) = some p →
    slots.find? (fun t => get_slot_court_number t == some p) = some s →
    findPrefLoop (buildGroups slots) prefs = some (s, str "Court " ++ p) := by
  intro prefs
  induction prefs with
  | nil => intro p s hf _; simp at hf
  | cons q rest ih =>
    intro p s hf hs
    by_cases hq : slots.any (fun t => get_slot_court_number t == some q) = true
    · rw [List.find?_cons_of_pos rest (by simpa using hq)] at hf
      have hpq : p = q := by injection hf with h; exact h.symm
      subst hpq
      have hfil : slots.filter (fun t => get_slot_court_number t == some p) ≠ [] := by
        intro hnil
        rw [List.any_eq_true] at hq
        obtain ⟨t, ht, hpt⟩ := hq
        have := List.filter_eq_nil_iff.mp hnil t ht
        simp_all
      unfold findPrefLoop
      rw [lookup_buildGroups slots p, if_neg hfil]
      rw [find?_eq_head?_filter] at hs
      rcases hcase : slots.filter (fun t => get_slot_court_number t == some p) with _ | ⟨s0, srest⟩
      · exact absurd hcase hfil
      · rw [hcase] at hs
        simp only [List.head?] at hs
        injection hs with hss
        subst hss
        rfl
    · rw [List.find?_cons_of_neg rest (by simpa using hq)] at hf
      have hfil : slots.filter (fun t => get_slot_court_number t == some q) = [] := by
        rw [List.filter_eq_nil_iff]
        intro t ht
        intro hc
        exact hq (List.any_eq_true.mpr ⟨t, ht, hc⟩)
      unfold findPrefLoop
      rw [lookup_buildGroups slots q, if_pos hfil]
      exact ih p s hf hs

/-- C7: the slot selector chooses by preference rank, not provider order:
whenever `p` is the first preferred court number for which any slot is
available, the selector returns the first slot (in provider order) whose
court number is `p`, labelled `Court p`. -/
theorem C7_selector_preference_rank (req : Req) (slots : List Slot) (p : Str) (s : Slot)
    (hf : (preferred_numbers req).find?
        (fun q => slots.any (fun t => get_slot_court_number t == some q)) = some p)
    (hs : slots.find? (fun t => get_slot_court_number t == some p) = some s) :
    pick_best_slot_for_request req slots = .ok (some s, some (str "Court " ++ p)) := by
  have hne : slots ≠ [] := by
    intro h; subst h; simp at hs
  have hpne : preferred_numbers req ≠ [] := by
    intro h; rw [h] at hf; simp at hf
  simp only [pick_best_slot_for_request]
  rw [if_neg hne, if_pos hpne, findPrefLoop_spec slots (preferred_numbers req) p s hf hs]

/-- C7 witness: preferences `["Court 5", "Court 3"]` with slots for courts
3 and 5 (court 3 listed first) select the court-5 slot. -/
theorem C7_witness :
    pick_best_slot_for_request reqA [slotC3, slotC5] =
      .ok (some slotC5, some (str "Court " ++ str "5")) := by
  exact C7_selector_preference_rank reqA [slotC3, slotC5] (str "5") slotC5 (by decide) (by decide)

theorem flow_count_le (account : Str) (env : Env) (w : CreditWorld) :
    (book_with_credit_for_date account env w).2 ≤ 1 := by
  unfold book_with_credit_for_date
  repeat' split
  all_goals simp

theorem flow_count_empty (account : Str) (env : Env) (w : CreditWorld)
    (h : w.listing = .ok []) : (book_with_credit_for_date account env w).2 = 0 := by
  unfold book_with_credit_for_date
  repeat' split
  all_goals simp_all

theorem flow_count_le_eq (a : Str) (e : Env) (w : CreditWorld) (x : Except PyExn FlowResult)
    (c : Nat) (h : book_with_credit_for_date a e w = (x, c)) : c ≤ 1 := by
  have h2 := flow_count_le a e w
  rw [h] at h2
  simpa using h2

theorem flow_count_empty_eq (a : Str) (e : Env) (w : CreditWorld) (x : Except PyExn FlowResult)
    (c : Nat) (h : book_with_credit_for_date a e w = (x, c)) (hl : w.listing = .ok []) :
    c = 0 := by
  have h2 := flow_count_empty a e w hl
  rw [h] at h2
  simpa using h2

theorem attempt_count_le (req : Req) (w : CreditWorld) (m : Str) (c : Nat)
    (h : book_with_credit_for_request req w = .ok (m, c)) : c ≤ 1 := by
  simp only [book_with_credit_for_request] at h
  repeat' split at h
  all_goals (try exact Except.noConfusion h)
  all_goals (injection h with h1; injection h1 with hm hc; subst hc)
  all_goals (try exact Nat.zero_le 1)
  all_goals (rename book_with_credit_for_date _ _ _ = _ => hflow)
  all_goals (exact flow_count_le_eq _ _ _ _ _ hflow)

theorem attempt_count_empty (req : Req) (w : CreditWorld) (m : Str) (c : Nat)
    (h : book_with_credit_for_request req w = .ok (m, c)) (hl : w.listing = .ok []) :
    c = 0 := by
  simp only [book_with_credit_for_request] at h
  repeat' split at h
  all_goals (try exact Except.noConfusion h)
  all_goals (injection h with h1; injection h1 with hm hc; subst hc)
  all_goals (try rfl)
  all_goals (rename book_with_credit_for_date _ _ _ = _ => hflow)
  all_goals (exact flow_count_empty_eq _ _ _ _ _ hflow hl)

theorem setEnv_lookup_ne (env : Env) (k v x : Str) (h : ¬ x = k) : setEnv env k v x = env x := by
  simp [setEnv, h]

theorem setEnv_lookup_eq (env : Env) (k v : Str) : setEnv env k v k = some v := by
  simp [setEnv]

theorem mem_venueValues_ne_nil (v : Str) (h : v ∈ venueValues) : v ≠ [] := by
  fin_cases h <;> decide

theorem mem_activityValues_ne_nil (v : Str) (h : v ∈ activityValues) : v ≠ [] := by
  fin_cases h <;> decide

theorem credsFor_javier (e2 : Env) (u p : Str)
    (h1 : e2 (str "BETTER_USERNAME_JAVIER") = some u)
    (h2 : e2 (str "BETTER_PASSWORD_JAVIER") = some p) :
    credsFor (str "javier") e2 = .ok () := by
  simp [credsFor, h1, h2]

theorem flow_listing_error (account : Str) (e2 : Env) (w : CreditWorld) (v a2 e : Str)
    (hc : credsFor account e2 = .ok ())
    (hv : e2 (str "BETTER_VENUE_SLUG") = some v) (hvm : v ∈ venueValues)
    (ha : e2 (str "BETTER_ACTIVITY_SLUG") = some a2) (ham : a2 ∈ activityValues)
    (hl : w.listing = .error e) :
    book_with_credit_for_date account e2 w = (.error (.exn e), 0) := by
  simp [book_with_credit_for_date, hc, hv, ha, hl, hvm, ham]

theorem flow_listing_empty (account : Str) (e2 : Env) (w : CreditWorld) (v a2 : Str)
    (hc : credsFor account e2 = .ok ())
    (hv : e2 (str "BETTER_VENUE_SLUG") = some v) (hvm : v ∈ venueValues)
    (ha : e2 (str "BETTER_ACTIVITY_SLUG") = some a2) (ham : a2 ∈ activityValues)
    (hl : w.listing = .ok []) :
    book_with_credit_for_date account e2 w = (.ok (.pyDict (some (str "not_open_yet")) true), 0) := by
  simp [book_with_credit_for_date, hc, hv, ha, hl, hvm, ham]

theorem attempt_listing_error (req : Req) (w : CreditWorld) (tgt : Int) (u p : Str)
    (st en : Nat × Nat) (e : Str)
    (ht : fromisoformat req.target_date = some tgt)
    (hst : parse_time_hhmm (hhmmOf req.target_start_time) = some st)
    (hen : parse_time_hhmm (hhmmOf req.target_end_time) = some en)
    (hres : w.resolve = .ok (str "BETTER_USERNAME_JAVIER", str "BETTER_PASSWORD_JAVIER"))
    (hu : w.env (str "BETTER_USERNAME_JAVIER") = some u) (hu2 : u ≠ [])
    (hpw : w.env (str "BETTER_PASSWORD_JAVIER") = some p) (hp2 : p ≠ [])
    (hv : pyStrip req.venue_slug ∈ venueValues)
    (ha : pyStrip req.activity_slug ∈ activityValues)
    (hl : w.listing = .error e) :
    book_with_credit_for_request req w = .ok (str "ERROR_BOOKING_CHECKOUT: " ++ e, 0) := by
  have htu : truthyOpt (pyOrStr (w.env (str "BETTER_USERNAME_JAVIER"))
      (w.env (str "BETTER_USERNAME"))) = true := by
    simp [hu, pyOrStr, truthyOpt, hu2]
  have htp : truthyOpt (pyOrStr (w.env (str "BETTER_PASSWORD_JAVIER"))
      (w.env (str "BETTER_PASSWORD"))) = true := by
    simp [hpw, pyOrStr, truthyOpt, hp2]
  have hval : pyOrStr (w.env (str "BETTER_USERNAME_JAVIER")) (w.env (str "BETTER_USERNAME"))
      = some u := by simp [hu, pyOrStr, hu2]
  have hpval : pyOrStr (w.env (str "BETTER_PASSWORD_JAVIER")) (w.env (str "BETTER_PASSWORD"))
      = some p := by simp [hpw, pyOrStr, hp2]
  have hlabel : ((str "BETTER_USERNAME_").isPrefixOf
      ((str "BETTER_USERNAME_JAVIER").map Char.toUpper)) = true := by decide
  have hsplit : splitAfterFirst (str "BETTER_USERNAME_") (str "BETTER_USERNAME_JAVIER")
      = some (str "JAVIER") := by decide
  have hlower : (str "JAVIER").map Char.toLower = str "javier" := by decide
  have hvne := mem_venueValues_ne_nil _ hv
  have hane := mem_activityValues_ne_nil _ ha
  have hflow : book_with_credit_for_date (str "javier")
      (setEnv (setEnv (setEnv (setEnv w.env (str "BETTER_USERNAME") u)
        (str "BETTER_PASSWORD") p) (str "BETTER_VENUE_SLUG") (pyStrip req.venue_slug))
        (str "BETTER_ACTIVITY_SLUG") (pyStrip req.activity_slug)) w
      = (.error (.exn e), 0) := by
    apply flow_listing_error _ _ _ (pyStrip req.venue_slug) (pyStrip req.activity_slug) e _ _ hv _ ha hl
    · apply credsFor_javier _ u p
      · rw [setEnv_lookup_ne _ _ _ _ (by decide), setEnv_lookup_ne _ _ _ _ (by decide),
            setEnv_lookup_ne _ _ _ _ (by decide), setEnv_lookup_ne _ _ _ _ (by decide)]
        exact hu
      · rw [setEnv_lookup_ne _ _ _ _ (by decide), setEnv_lookup_ne _ _ _ _ (by decide),
            setEnv_lookup_ne _ _ _ _ (by decide), setEnv_lookup_ne _ _ _ _ (by decide)]
        exact hpw
    · rw [setEnv_lookup_ne _ _ _ _ (by decide)]
      exact setEnv_lookup_eq _ _ _
    · exact setEnv_lookup_eq _ _ _
  simp only [book_with_credit_for_request, ht, hst, hen, hres, hval, hpval, htu, htp,
    hlabel, hsplit, hlower, if_true]
  rw [if_neg (by simp [truthyOpt, hu2, hp2])]
  rw [if_neg (by simp [hvne, hane])]
  rw [hflow]

theorem attempt_listing_empty (req : Req) (w : CreditWorld) (tgt : Int) (u p : Str)
    (st en : Nat × Nat)
    (ht : fromisoformat req.target_date = some tgt)
    (hst : parse_time_hhmm (hhmmOf req.target_start_time) = some st)
    (hen : parse_time_hhmm (hhmmOf req.target_end_time) = some en)
    (hres : w.resolve = .ok (str "BETTER_USERNAME_JAVIER", str "BETTER_PASSWORD_JAVIER"))
    (hu : w.env (str "BETTER_USERNAME_JAVIER") = some u) (hu2 : u ≠ [])
    (hpw : w.env (str "BETTER_PASSWORD_JAVIER") = some p) (hp2 : p ≠ [])
    (hv : pyStrip req.venue_slug ∈ venueValues)
    (ha : pyStrip req.activity_slug ∈ activityValues)
    (hl : w.listing = .ok []) :
    book_with_credit_for_request req w =
      .ok ((if w.today > tgt - 7 then msg_no_slots_0 req else msg_no_slots_not_open req), 0) := by
  have htu : truthyOpt (pyOrStr (w.env (str "BETTER_USERNAME_JAVIER"))
      (w.env (str "BETTER_USERNAME"))) = true := by
    simp [hu, pyOrStr, truthyOpt, hu2]
  have htp : truthyOpt (pyOrStr (w.env (str "BETTER_PASSWORD_JAVIER"))
      (w.env (str "BETTER_PASSWORD"))) = true := by
    simp [hpw, pyOrStr, truthyOpt, hp2]
  have hval : pyOrStr (w.env (str "BETTER_USERNAME_JAVIER")) (w.env (str "BETTER_USERNAME"))
      = some u := by simp [hu, pyOrStr, hu2]
  have hpval : pyOrStr (w.env (str "BETTER_PASSWORD_JAVIER")) (w.env (str "BETTER_PASSWORD"))
      = some p := by simp [hpw, pyOrStr, hp2]
  have hlabel : ((str "BETTER_USERNAME_").isPrefixOf
      ((str "BETTER_USERNAME_JAVIER").map Char.toUpper)) = true := by decide
  have hsplit : splitAfterFirst (str "BETTER_USERNAME_") (str "BETTER_USERNAME_JAVIER")
      = some (str "JAVIER") := by decide
  have hlower : (str "JAVIER").map Char.toLower = str "javier" := by decide
  have hvne := mem_venueValues_ne_nil _ hv
  have hane := mem_activityValues_ne_nil _ ha
  have hflow : book_with_credit_for_date (str "javier")
      (setEnv (setEnv (setEnv (setEnv w.env (str "BETTER_USERNAME") u)
        (str "BETTER_PASSWORD") p) (str "BETTER_VENUE_SLUG") (pyStrip req.venue_slug))
        (str "BETTER_ACTIVITY_SLUG") (pyStrip req.activity_slug)) w
      = (.ok (.pyDict (some (str "not_open_yet")) true), 0) := by
    apply flow_listing_empty _ _ _ (pyStrip req.venue_slug) (pyStrip req.activity_slug) _ _ hv _ ha hl
    · apply credsFor_javier _ u p
      · rw [setEnv_lookup_ne _ _ _ _ (by decide), setEnv_lookup_ne _ _ _ _ (by decide),
            setEnv_lookup_ne _ _ _ _ (by decide), setEnv_lookup_ne _ _ _ _ (by decide)]
        exact hu
      · rw [setEnv_lookup_ne _ _ _ _ (by decide), setEnv_lookup_ne _ _ _ _ (by decide),
            setEnv_lookup_ne _ _ _ _ (by decide), setEnv_lookup_ne _ _ _ _ (by decide)]
        exact hpw
    · rw [setEnv_lookup_ne _ _ _ _ (by decide)]
      exact setEnv_lookup_eq _ _ _
    · exact setEnv_lookup_eq _ _ _
  simp only [book_with_credit_for_request, ht, hst, hen, hres, hval, hpval, htu, htp,
    hlabel, hsplit, hlower, if_true]
  rw [if_neg (by simp [truthyOpt, hu2, hp2])]
  rw [if_neg (by simp [hvne, hane])]
  rw [hflow]
  by_cases htd : w.today > tgt - 7 <;> simp [htd]

/-- C2 counterexample: a world whose slot-listing call raises; the
dispatcher nevertheless performs a second full attempt (attempt count 2),
because the listing exception is caught into an `ERROR_BOOKING_CHECKOUT`
message — refuting that listing failures are never retried.  Checkout is
called 0 times. -/
theorem C2_counterexample :
    wListErr.listing = .error (str "HTTPError 500") ∧
    dispatch_booking reqA wListErr wListErr =
      .ok (str "ERROR_BOOKING_CHECKOUT: HTTPError 500", 0, 2) := by
  exact ⟨rfl, rfl⟩

/-- C2 (amended): the dispatcher performs the single retry exactly when the
first attempt's message starts with `ERROR_BOOKING_CHECKOUT` — which
covers checkout-stage failures but also credential/configuration-env
failures and any exception inside the credit flow, including listing-stage
exceptions; the Provider checkout operation is called at most twice in an
execution; an attempt whose listing returns no slots makes zero checkout
calls, and a `BOOKING_NO_SLOTS` first message is never retried. -/
theorem C2_retry_policy (req : Req) (w1 w2 : CreditWorld) (m1 m : Str) (c1 c a : Nat)
    (h1 : book_with_credit_for_request req w1 = .ok (m1, c1))
    (hd : dispatch_booking req w1 w2 = .ok (m, c, a)) :
    c ≤ 2 ∧
    a = (if (str "ERROR_BOOKING_CHECKOUT").isPrefixOf m1 then 2 else 1) ∧
    (w1.listing = .ok [] → c1 = 0) ∧
    ((str "BOOKING_NO_SLOTS").isPrefixOf m1 = true → a = 1) := by
  have hc1 := attempt_count_le req w1 m1 c1 h1
  unfold dispatch_booking at hd
  rw [h1] at hd
  by_cases hp : (str "ERROR_BOOKING_CHECKOUT").isPrefixOf m1 = true
  · simp only [hp, if_true] at hd
    rcases h2 : book_with_credit_for_request req w2 with e | ⟨m2, c2⟩
    · rw [h2] at hd; exact Except.noConfusion hd
    · rw [h2] at hd
      have hc2 := attempt_count_le req w2 m2 c2 h2
      injection hd with hd1
      injection hd1 with hm hd2
      injection hd2 with hc ha
      subst hc; subst ha
      refine ⟨by omega, by rw [if_pos hp], fun hl => attempt_count_empty req w1 m1 c1 h1 hl, ?_⟩
      intro hB
      have hq := isPrefixOf_of_ne_head 'B' 'E' (str "OOKING_NO_SLOTS")
        (str "RROR_BOOKING_CHECKOUT") m1 (by decide) hB
      rw [hp] at hq
      exact absurd hq (by decide)
  · have hp2 : (str "ERROR_BOOKING_CHECKOUT").isPrefixOf m1 = false := by
      exact Bool.not_eq_true _ ▸ (by simpa using hp)
    simp only [hp2, Bool.false_eq_true, if_false] at hd
    injection hd with hd1
    injection hd1 with hm hd2
    injection hd2 with hc ha
    subst hc; subst ha
    refine ⟨by omega, by rw [if_neg (by simp [hp2])], fun hl => attempt_count_empty req w1 m1 c1 h1 hl, fun _ => rfl⟩

/-- C2 witness: an empty-listing first attempt is not retried and makes no
checkout call. -/
theorem C2_witness :
    (0 : Nat) ≤ 2 ∧
    (1 : Nat) = (if (str "ERROR_BOOKING_CHECKOUT").isPrefixOf (msg_no_slots_not_open reqA)
                 then 2 else 1) ∧
    (wEmpty.listing = .ok [] → (0 : Nat) = 0) ∧
    ((str "BOOKING_NO_SLOTS").isPrefixOf (msg_no_slots_not_open reqA) = true → (1 : Nat) = 1) := by
  exact C2_retry_policy reqA wEmpty wEmpty (msg_no_slots_not_open reqA)
    (msg_no_slots_not_open reqA) 0 0 1 rfl rfl

/-- C4 counterexample: with booking enabled, a Provider slot-listing
exception produces an `ERROR_BOOKING_CHECKOUT` message whose status
mapping is FAILED, not SEARCHING. -/
theorem C4_counterexample :
    wListErr.listing = .error (str "HTTPError 500") ∧
    dispatch_booking reqA wListErr wListErr =
      .ok (str "ERROR_BOOKING_CHECKOUT: HTTPError 500", 0, 2) ∧
    status_for_message (str "ERROR_BOOKING_CHECKOUT: HTTPError 500") = str "FAILED" := by
  exact ⟨rfl, rfl, rfl⟩

/-- C4 (amended): for a request dispatched as PROCESS with booking enabled
whose configuration and credentials resolve, a Provider listing exception
is caught into an `ERROR_BOOKING_CHECKOUT` message, retried once, and maps
to status FAILED; only an empty slot listing yields a `BOOKING_NO_SLOTS`
message, which is not retried and maps to SEARCHING. -/
theorem C4_listing_failure_status (req : Req) (w : CreditWorld) (tgt : Int) (u p : Str)
    (st en : Nat × Nat)
    (ht : fromisoformat req.target_date = some tgt)
    (hst : parse_time_hhmm (hhmmOf req.target_start_time) = some st)
    (hen : parse_time_hhmm (hhmmOf req.target_end_time) = some en)
    (hres : w.resolve = .ok (str "BETTER_USERNAME_JAVIER", str "BETTER_PASSWORD_JAVIER"))
    (hu : w.env (str "BETTER_USERNAME_JAVIER") = some u) (hu2 : u ≠ [])
    (hpw : w.env (str "BETTER_PASSWORD_JAVIER") = some p) (hp2 : p ≠ [])
    (hv : pyStrip req.venue_slug ∈ venueValues)
    (ha : pyStrip req.activity_slug ∈ activityValues) :
    (∀ e, w.listing = .error e →
      dispatch_booking req w w = .ok (str "ERROR_BOOKING_CHECKOUT: " ++ e, 0, 2) ∧
      status_for_message (str "ERROR_BOOKING_CHECKOUT: " ++ e) = str "FAILED") ∧
    (w.listing = .ok [] →
      ∃ msg, dispatch_booking req w w = .ok (msg, 0, 1) ∧
        (str "BOOKING_NO_SLOTS").isPrefixOf msg = true ∧
        status_for_message msg = str "SEARCHING") := by
  constructor
  · intro e hl
    have hatt := attempt_listing_error req w tgt u p st en e ht hst hen hres hu hu2 hpw hp2 hv ha hl
    have hpre : (str "ERROR_BOOKING_CHECKOUT").isPrefixOf
        (str "ERROR_BOOKING_CHECKOUT: " ++ e) = true := by
      rw [isPrefixOf_append_of_length_le _ _ _ (by decide)]; decide
    constructor
    · unfold dispatch_booking
      rw [hatt]
      simp only [hpre, if_true]
    · have h1 : (str "BOOKING_OK").isPrefixOf (str "ERROR_BOOKING_CHECKOUT: " ++ e) = false := by
        rw [isPrefixOf_append_of_length_le _ _ _ (by decide)]; decide
      have h2 : (str "BOOKING_NO_SLOTS").isPrefixOf
          (str "ERROR_BOOKING_CHECKOUT: " ++ e) = false := by
        rw [isPrefixOf_append_of_length_le _ _ _ (by decide)]; decide
      have h3 : (str "ERROR_BOOKING_").isPrefixOf (str "ERROR_BOOKING_CHECKOUT: " ++ e) = true := by
        rw [isPrefixOf_append_of_length_le _ _ _ (by decide)]; decide
      simp [status_for_message, h1, h2, h3]
  · intro hl
    have hatt := attempt_listing_empty req w tgt u p st en ht hst hen hres hu hu2 hpw hp2 hv ha hl
    refine ⟨(if w.today > tgt - 7 then msg_no_slots_0 req else msg_no_slots_not_open req),
      ?_, ?_, ?_⟩
    · unfold dispatch_booking
      rw [hatt]
      have hb : (str "ERROR_BOOKING_CHECKOUT").isPrefixOf
          (if w.today > tgt - 7 then msg_no_slots_0 req else msg_no_slots_not_open req) = false := by
        by_cases htd : w.today > tgt - 7 <;>
          simp only [htd, if_true, if_false, msg_no_slots_0, msg_no_slots_not_open] <;>
          (rw [isPrefixOf_append_of_length_le _ _ _ (by decide)]; decide)
      simp only [hb, Bool.false_eq_true, if_false]
    · by_cases htd : w.today > tgt - 7 <;>
        simp only [htd, if_true, if_false, msg_no_slots_0, msg_no_slots_not_open] <;>
        (rw [isPrefixOf_append_of_length_le _ _ _ (by decide)]; decide)
    · have h1 : (str "BOOKING_OK").isPrefixOf
          (if w.today > tgt - 7 then msg_no_slots_0 req else msg_no_slots_not_open req) = false := by
        by_cases htd : w.today > tgt - 7 <;>
          simp only [htd, if_true, if_false, msg_no_slots_0, msg_no_slots_not_open] <;>
          (rw [isPrefixOf_append_of_length_le _ _ _ (by decide)]; decide)
      have h2 : (str "BOOKING_NO_SLOTS").isPrefixOf
          (if w.today > tgt - 7 then msg_no_slots_0 req else msg_no_slots_not_open req) = true := by
        by_cases htd : w.today > tgt - 7 <;>
          simp only [htd, if_true, if_false, msg_no_slots_0, msg_no_slots_not_open] <;>
          (rw [isPrefixOf_append_of_length_le _ _ _ (by decide)]; decide)
      simp [status_for_message, h1, h2]

/-- C4 witness: the amended listing-exception property at a concrete world. -/
theorem C4_witness :
    dispatch_booking reqA wListErr wListErr =
      .ok (str "ERROR_BOOKING_CHECKOUT: " ++ str "HTTPError 500", 0, 2) ∧
    status_for_message (str "ERROR_BOOKING_CHECKOUT: " ++ str "HTTPError 500") = str "FAILED" := by
  exact (C4_listing_failure_status reqA wListErr 20469 (str "user") (str "pass") (19, 0) (20, 0)
    rfl rfl rfl rfl rfl (by decide) rfl (by decide) (by decide) (by decide)).1
    (str "HTTPError 500") rfl

end BookBot
